import Mathlib

/-!
Shallow embedding of `web2app.py` (repository geavenx/web2app), a single-file
CLI that manages desktop launcher entries ("web apps").

External collaborators (the OS and the network) are modelled as an `Env`
record of pure functions: `which` is `shutil.which` (PATH lookup),
`waylandDisplay` / `xdgSessionType` are the two environment variables read by
`detect_display_server`, `parse` is `urllib.parse.urlparse` restricted to the
two fields the program reads (`scheme`, `netloc`), and `headResult` /
`getResult` give the outcome of `requests.head` / `requests.get` per URL.

The file system is modelled by `FS`: the existence flag of the `icons` subdirectory
and two partial maps from an app name to the content of
`<apps-dir>/<name>.desktop` and `<apps-dir>/icons/<name>.png`.  Every
operation returns an `Outcome`: the list of strings passed to `print`, the
list of side `Effect`s in order, `exit = some c` when the Python process would
have called `exit(c)` (`none` when the function returns normally), and the
resulting file system.
-/

/-- The `scheme` and `netloc` fields of `urllib.parse.urlparse(url)`. -/
structure ParsedUrl where
  scheme : String
  netloc : String
deriving DecidableEq, Repr

/-- Outcome of `requests.head(url, timeout=10, allow_redirects=True)` followed by
`raise_for_status()`: either some `requests.RequestException` was raised
(connection failure or non-2xx status), or a response with the given
`Content-Type` header value (`""` when the header is absent). -/
inductive HeadOutcome where
  | fail (msg : String)
  | ok (contentType : String)
deriving DecidableEq, Repr

/-- Outcome of `requests.get(url, allow_redirects=True)` followed by
`raise_for_status()`, as distinguished by the handlers in `download_file`. -/
inductive GetOutcome where
  | httpError (msg : String)
  | missingSchema (msg : String)
  | ok (content : String)
deriving DecidableEq, Repr

/-- One observable side effect, in the order the program performs them. -/
inductive Effect where
  | headRequest (url : String)
  | getRequest (url : String)
  | mkdirIcons
  | writeIconFile (name : String)
  | writeDesktopFile (name : String)
  | chmodDesktopFile (name : String)
  | deleteDesktopFile (name : String)
  | deleteIconFile (name : String)
deriving DecidableEq, Repr

/-- The parts of the file system the program touches, keyed by app name
(all operations use the same fixed directories). -/
structure FS where
  iconsDirExists : Bool
  desktopFiles : String → Option String
  iconFiles : String → Option String

/-- Result of running an operation: printed lines, side effects in order,
`exit = some c` when the process exited with code `c`, and the final file
system. -/
structure Outcome where
  out : List String
  effects : List Effect
  exit : Option Nat
  fs : FS

/-- The ambient OS and network, as pure functions. -/
structure Env where
  home : String
  which : String → Bool
  waylandDisplay : Option String
  xdgSessionType : Option String
  parse : String → ParsedUrl
  headResult : String → HeadOutcome
  getResult : String → GetOutcome

/-- Python `s.startswith(pre)`. -/
def starts_with (s pre : String) : Bool :=
  pre.data.isPrefixOf s.data

/-- Python `s[n:]` on the characters of `s`; used for `arg.split("=", 1)[1]`
where the `=` of the flag sits right before character index `n`. -/
def str_drop (s : String) (n : Nat) : String :=
  ⟨s.data.drop n⟩

/-- Contiguous-sublist check on character lists. -/
def char_list_infix (pat : List Char) : List Char → Bool
  | [] => pat.isEmpty
  | c :: rest => pat.isPrefixOf (c :: rest) || char_list_infix pat rest

/-- Python `pat in hay` (substring containment) for the nonempty patterns the
program uses. -/
def str_contains (hay pat : String) : Bool :=
  char_list_infix pat.data hay.data

/-- Python `s.lower()` on the ASCII strings the program compares. -/
def str_lower (s : String) : String :=
  ⟨s.data.map Char.toLower⟩

/-- Pointwise update of a name-keyed map (file creation / overwrite /
deletion). -/
def upd (f : String → Option String) (k : String) (v : Option String) :
    String → Option String :=
  fun n => if n = k then v else f n

/-- Source `SUPPORTED_BROWSERS`: supported Chromium-based browsers in order of
preference. -/
def SUPPORTED_BROWSERS : List String :=
  ["helium-browser",
   "chromium",
   "chromium-browser",
   "google-chrome",
   "google-chrome-stable",
   "brave-browser",
   "brave",
   "microsoft-edge",
   "microsoft-edge-stable"]

/-- Source `detect_browser()`: first supported browser present on `PATH`, else
`None`. -/
def detect_browser (which : String → Bool) : Option String :=
  SUPPORTED_BROWSERS.find? which

/-- Source `detect_display_server()`: `"wayland"` when `WAYLAND_DISPLAY` is set to a
truthy (nonempty) value or `XDG_SESSION_TYPE == "wayland"`, else `"x11"`. -/
def detect_display_server (env : Env) : String :=
  if (env.waylandDisplay.getD "") ≠ "" then "wayland"
  else if env.xdgSessionType = some "wayland" then "wayland"
  else "x11"

/-- Source `validate_url(url, url_type)`: printed lines and the returned Bool.
The `except` arm of the source is unreachable here because the modelled
`urlparse` is total. -/
def validate_url (url : String) (parsed : ParsedUrl) (url_type : String) :
    List String × Bool :=
  if ¬(parsed.scheme = "http" ∨ parsed.scheme = "https") then
    (["[ERROR] invalid " ++ url_type ++ ": \x27" ++ url ++ "\x27",
      "-> " ++ url_type ++ " must start with http:// or https://"], false)
  else if parsed.netloc = "" then
    (["[ERROR] invalid " ++ url_type ++ ": \x27" ++ url ++ "\x27",
      "-> " ++ url_type ++ " is missing a domain"], false)
  else ([], true)

/-- A URL that `validate_url` accepts: `http`/`https` scheme and a nonempty
host. -/
def valid_parse (p : ParsedUrl) : Prop :=
  (p.scheme = "http" ∨ p.scheme = "https") ∧ p.netloc ≠ ""

instance (p : ParsedUrl) : Decidable (valid_parse p) := by
  unfold valid_parse; infer_instance

/-- The image MIME-type allow-list of `validate_icon_url`. -/
def valid_types : List String :=
  ["image/png", "image/x-icon", "image/ico", "image/jpeg", "image/svg+xml",
   "image/webp"]

/-- Source `validate_icon_url(url)`: printed lines, effects (the HEAD request when it
is reached), and the returned Bool. -/
def validate_icon_url (env : Env) (url : String) :
    List String × List Effect × Bool :=
  let v := validate_url url (env.parse url) "icon URL"
  if v.2 = false then (v.1, [], false)
  else
    match env.headResult url with
    | HeadOutcome.fail err =>
        (["[WARNING] could not verify icon URL: " ++ err,
          "-> continuing anyway, but the icon might not work"],
         [Effect.headRequest url], true)
    | HeadOutcome.ok ct =>
        let content_type := str_lower ct
        if valid_types.any (fun t => str_contains content_type t) then
          ([], [Effect.headRequest url], true)
        else
          (["[WARNING] icon URL may not be a valid image (Content-Type: " ++
              content_type ++ ")",
            "-> continuing anyway, but the icon might not display correctly"],
           [Effect.headRequest url], true)

/-- Path `f"{Path.home()}/.local/share/applications"`. -/
def applications_dir (home : String) : String :=
  home ++ "/.local/share/applications"

/-- Path `f"{applications_dir}/icons"`. -/
def icons_dir (home : String) : String :=
  applications_dir home ++ "/icons"

/-- Path `f"{applications_dir}/{name}.desktop"`. -/
def desktop_file_path (home name : String) : String :=
  applications_dir home ++ "/" ++ name ++ ".desktop"

/-- Path `f"{icon_dir}/{name}.png"`. -/
def icon_file_path (home name : String) : String :=
  icons_dir home ++ "/" ++ name ++ ".png"

/-- The lines of the f-string written by `write_desktop_file` (the content is
their `"\n"`-intercalation; the leading empty line comes from the leading
newline of the f-string).  Note the stray git merge-conflict marker line the source leaves
between the `Exec` and `Terminal` lines. -/
def desktop_file_lines (url name icon_path platform browser : String) :
    List String :=
  let platform_flag :=
    if platform = "" then "" else "--ozone-platform=" ++ platform
  ["",
   "[Desktop Entry]",
   "Version=1.0",
   "Name=" ++ name,
   "Comment=" ++ name,
   "Exec=" ++ browser ++ " --new-window " ++ platform_flag ++ " --app=" ++
     url ++ " --name=" ++ name ++ " --class=" ++ name,
   ">>>>>>> f03086e (feat: support multiple Chromium-based browsers)",
   "Terminal=false",
   "Type=Application",
   "Icon=" ++ icon_path,
   "StartupNotify=true"]

/-- The exact string `write_desktop_file` writes to the desktop-entry file. -/
def desktop_file_content (url name icon_path platform browser : String) :
    String :=
  String.intercalate "\n" (desktop_file_lines url name icon_path platform browser)

/-- Source `browser if browser is not None else detect_browser()` inside
`create_app`. -/
def resolve_browser (env : Env) (browser : Option String) : Option String :=
  match browser with
  | some b => some b
  | none => detect_browser env.which

/-- Source `create_app(name, url, icon_url, platform, browser)`: URL validation,
platform/browser resolution, `mkdir` of the icons directory, the icon
download (`download_file`, inlined with its two exits), and
`write_desktop_file` (the file write plus `chmod`). -/
def create_app (env : Env) (fs : FS) (name url icon_url : String)
    (platform browser : Option String) : Outcome :=
  let vu := validate_url url (env.parse url) "webapp URL"
  if vu.2 = false then ⟨vu.1, [], some 1, fs⟩
  else
    let vi := validate_icon_url env icon_url
    if vi.2.2 = false then ⟨vu.1 ++ vi.1, vi.2.1, some 1, fs⟩
    else
      let platform := platform.getD (detect_display_server env)
      match resolve_browser env browser with
      | none =>
          ⟨vu.1 ++ vi.1 ++
             ["[ERROR] no supported browser found.",
              "-> supported browsers: " ++
                String.intercalate ", " SUPPORTED_BROWSERS],
           vi.2.1, some 1, fs⟩
      | some b =>
          let fs1 : FS := { fs with iconsDirExists := true }
          let effs := vi.2.1 ++ [Effect.mkdirIcons]
          let ipath := icon_file_path env.home name
          match env.getResult icon_url with
          | GetOutcome.httpError err =>
              ⟨vu.1 ++ vi.1 ++
                 ["[ERROR] failed to download file: " ++ ipath ++
                    ".\nerror trace: " ++ err ++ "\n"],
               effs ++ [Effect.getRequest icon_url], some 1, fs1⟩
          | GetOutcome.missingSchema err =>
              ⟨vu.1 ++ vi.1 ++
                 ["[ERROR] failed to parse icon url: " ++ icon_url ++
                    ".\nerror trace: " ++ err ++ "\n"],
               effs ++ [Effect.getRequest icon_url], some 1, fs1⟩
          | GetOutcome.ok content =>
              let fs2 : FS :=
                { fs1 with iconFiles := upd fs1.iconFiles name (some content) }
              let dcontent :=
                desktop_file_content url name ipath platform b
              let fs3 : FS :=
                { fs2 with
                    desktopFiles := upd fs2.desktopFiles name (some dcontent) }
              ⟨vu.1 ++ vi.1,
               effs ++ [Effect.getRequest icon_url, Effect.writeIconFile name,
                        Effect.writeDesktopFile name,
                        Effect.chmodDesktopFile name],
               none, fs3⟩

/-- Source `remove_app(name)`: `mkdir` of the icons directory first, then the
existence check on the desktop-entry file, then the deletions. -/
def remove_app (fs : FS) (name : String) : Outcome :=
  let fs1 : FS := { fs with iconsDirExists := true }
  if fs1.desktopFiles name = none then
    ⟨["[ERROR] webapp with name \x27" ++ name ++ "\x27 does not exist.",
      "-> tip: make sure that the case is matching."],
     [Effect.mkdirIcons], some 1, fs1⟩
  else if fs1.iconFiles name = none then
    ⟨["[WARNING] webapp icon with name \x27" ++ name ++ "\x27 not found."],
     [Effect.mkdirIcons, Effect.deleteDesktopFile name], none,
     { fs1 with desktopFiles := upd fs1.desktopFiles name none }⟩
  else
    ⟨[], [Effect.mkdirIcons, Effect.deleteDesktopFile name,
          Effect.deleteIconFile name], none,
     { fs1 with desktopFiles := upd fs1.desktopFiles name none,
                iconFiles := upd fs1.iconFiles name none }⟩

/-- The lines printed by `usage(program_name)`, one per `print` call. -/
def usage_lines (program_name : String) : List String :=
  ["Usage: " ++ program_name ++ " <SUBCOMMAND> [ARGS]",
   "Subcommands:",
   "    add <name> <url> <icon_url> [--platform=<wayland|x11>] [--browser=<name>]",
   "                                   add a new webapp",
   "    remove <name>                  remove a webapp",
   "    help                           prints this usage message to stdout.",
   "\nOptions:",
   "    --platform=<wayland|x11>       display server (auto-detected if not specified)",
   "    --browser=<name>               browser to use (auto-detected if not specified)",
   "                                   supported: " ++
     String.intercalate ", " SUPPORTED_BROWSERS,
   "\nFYI: `<icon_url>` must be a png file, use: https://dashboardicons.com"]

/-- The accumulator of the `for arg in argv` loop of the `add` branch of
`main`. -/
structure AddParseState where
  platform : Option String
  browser : Option String
  positional : List String

/-- One iteration of the `add` argument loop.  Mirrors the source exactly: a
`--platform=` argument is inspected (with the `exit(1)` on an invalid value),
and then — because the second `if` in the source is not an `elif` — the same
argument is still appended to `positional_args` since it does not start with
`--browser=`.  `throw` carries the printed lines of the `exit(1)` path. -/
def add_parse_arg (program_name : String) (st : AddParseState) (arg : String) :
    Except (List String) AddParseState := do
  let st ←
    if starts_with arg "--platform=" then
      let p := str_drop arg 11
      if p = "wayland" ∨ p = "x11" then
        pure { st with platform := some p }
      else
        throw (("[ERROR] invalid platform \x27" ++ p ++
            "\x27. Must be \x27wayland\x27 or \x27x11\x27.\n") ::
          usage_lines program_name)
    else
      pure st
  if starts_with arg "--browser=" then
    pure { st with browser := some (str_drop arg 10) }
  else
    pure { st with positional := st.positional ++ [arg] }

/-- Source `main()`, given `sys.argv[0]` as `program_name` and `sys.argv[1:]` as
`args`. -/
def run_main (env : Env) (fs : FS) (program_name : String)
    (args : List String) : Outcome :=
  match args with
  | [] =>
      ⟨"[ERROR] no subcommand provided.\n" :: usage_lines program_name,
       [], some 1, fs⟩
  | subcommand :: argv =>
      if subcommand = "add" then
        match argv.foldlM (add_parse_arg program_name)
            (⟨none, none, []⟩ : AddParseState) with
        | Except.error out => ⟨out, [], some 1, fs⟩
        | Except.ok st =>
            match st.positional with
            | [name, url, icon_url] =>
                let o := create_app env fs name url icon_url st.platform
                  st.browser
                match o.exit with
                | some _ => o
                | none =>
                    { o with
                        out := o.out ++
                          [program_name ++ ": web-app \x27" ++ name ++
                            "\x27 created successfully."],
                        exit := some 0 }
            | ps =>
                if ps.length < 3 then
                  ⟨"[ERROR] not enough arguments provided.\n" ::
                     usage_lines program_name, [], some 1, fs⟩
                else
                  ⟨"[ERROR] too many arguments provided.\n" ::
                     usage_lines program_name, [], some 1, fs⟩
      else if subcommand = "remove" then
        match argv with
        | [] =>
            ⟨"[ERROR] not enough arguments provided.\n" ::
               usage_lines program_name, [], some 1, fs⟩
        | [name] =>
            let o := remove_app fs name
            match o.exit with
            | some _ => o
            | none =>
                { o with
                    out := o.out ++
                      [program_name ++ ": web-app \x27" ++ name ++
                        "\x27 deleted successfully."],
                    exit := some 0 }
        | _ =>
            ⟨"[ERROR] too many arguments provided.\n" ::
               usage_lines program_name, [], some 1, fs⟩
      else if subcommand = "help" then
        ⟨usage_lines program_name, [], some 0, fs⟩
      else
        ⟨"[ERROR] unknown subcommand provided.\n" :: usage_lines program_name,
         [], some 1, fs⟩

/-- A concrete environment for witnesses: `chromium` on `PATH`, no Wayland
session, both example URLs parsing as valid `https` URLs, a PNG content type
on HEAD, and a successful download. -/
def env0 : Env where
  home := "/home/user"
  which := fun b => b = "chromium"
  waylandDisplay := none
  xdgSessionType := none
  parse := fun s =>
    if s = "https://example.com" then ⟨"https", "example.com"⟩
    else if s = "https://example.com/icon.png" then ⟨"https", "example.com"⟩
    else ⟨"", ""⟩
  headResult := fun _ => HeadOutcome.ok "image/png"
  getResult := fun _ => GetOutcome.ok "PNGDATA"

/-- An empty file system whose icons directory does not exist yet. -/
def fs0 : FS :=
  ⟨false, fun _ => none, fun _ => none⟩

/-- An empty file system whose icons directory exists. -/
def fsEmptyIcons : FS :=
  ⟨true, fun _ => none, fun _ => none⟩

/-- A file system that already holds a desktop file named `myapp.desktop`
(with no icon). -/
def fs1 : FS :=
  ⟨true, fun n => if n = "myapp" then some "old content" else none,
   fun _ => none⟩

theorem validate_url_valid (url : String) (p : ParsedUrl) (url_type : String)
    (h : valid_parse p) : validate_url url p url_type = ([], true) := by
  obtain ⟨h1, h2⟩ := h
  unfold validate_url
  rw [if_neg (not_not_intro h1), if_neg h2]

theorem validate_icon_url_valid (env : Env) (url : String)
    (h : valid_parse (env.parse url)) :
    ∃ w, validate_icon_url env url = (w, [Effect.headRequest url], true) := by
  unfold validate_icon_url
  rw [validate_url_valid url (env.parse url) "icon URL" h]
  cases hh : env.headResult url with
  | fail msg => exact ⟨_, rfl⟩
  | ok ct =>
      by_cases hc :
          valid_types.any (fun t => str_contains (str_lower ct) t) = true
      · refine ⟨[], ?_⟩
        simp only [hc, if_true]
        rfl
      · refine ⟨["[WARNING] icon URL may not be a valid image (Content-Type: " ++
            str_lower ct ++ ")",
          "-> continuing anyway, but the icon might not display correctly"], ?_⟩
        simp only [Bool.not_eq_true] at hc
        simp only [hc]
        rfl

theorem create_app_ok (env : Env) (fs : FS)
    (name url icon_url content b : String) (platform browser : Option String)
    (hu : valid_parse (env.parse url)) (hi : valid_parse (env.parse icon_url))
    (hg : env.getResult icon_url = GetOutcome.ok content)
    (hb : resolve_browser env browser = some b) :
    ∃ w, create_app env fs name url icon_url platform browser =
      ⟨w,
       [Effect.headRequest icon_url, Effect.mkdirIcons,
        Effect.getRequest icon_url, Effect.writeIconFile name,
        Effect.writeDesktopFile name, Effect.chmodDesktopFile name],
       none,
       ⟨true,
        upd fs.desktopFiles name (some (desktop_file_content url name
          (icon_file_path env.home name)
          (platform.getD (detect_display_server env)) b)),
        upd fs.iconFiles name (some content)⟩⟩ := by
  obtain ⟨w, hw⟩ := validate_icon_url_valid env icon_url hi
  refine ⟨w, ?_⟩
  unfold create_app
  rw [validate_url_valid url (env.parse url) "webapp URL" hu, hw, hb, hg]
  rfl

theorem remove_app_not_found (fs : FS) (name : String)
    (h : fs.desktopFiles name = none) :
    remove_app fs name =
      ⟨["[ERROR] webapp with name \x27" ++ name ++ "\x27 does not exist.",
        "-> tip: make sure that the case is matching."],
       [Effect.mkdirIcons], some 1,
       ⟨true, fs.desktopFiles, fs.iconFiles⟩⟩ := by
  unfold remove_app
  rw [if_pos (show ({fs with iconsDirExists := true} : FS).desktopFiles name
    = none from h)]

theorem remove_app_icon_missing (fs : FS) (name d : String)
    (hd : fs.desktopFiles name = some d) (hi : fs.iconFiles name = none) :
    remove_app fs name =
      ⟨["[WARNING] webapp icon with name \x27" ++ name ++ "\x27 not found."],
       [Effect.mkdirIcons, Effect.deleteDesktopFile name], none,
       ⟨true, upd fs.desktopFiles name none, fs.iconFiles⟩⟩ := by
  unfold remove_app
  rw [if_neg (show ¬({fs with iconsDirExists := true} : FS).desktopFiles name
        = none by simp [hd]),
    if_pos (show ({fs with iconsDirExists := true} : FS).iconFiles name
        = none from hi)]

theorem remove_app_both (fs : FS) (name d c : String)
    (hd : fs.desktopFiles name = some d) (hi : fs.iconFiles name = some c) :
    remove_app fs name =
      ⟨[], [Effect.mkdirIcons, Effect.deleteDesktopFile name,
            Effect.deleteIconFile name], none,
       ⟨true, upd fs.desktopFiles name none, upd fs.iconFiles name none⟩⟩ := by
  unfold remove_app
  rw [if_neg (show ¬({fs with iconsDirExists := true} : FS).desktopFiles name
        = none by simp [hd]),
    if_neg (show ¬({fs with iconsDirExists := true} : FS).iconFiles name
        = none by simp [hi])]

theorem run_main_remove_eq (env : Env) (fs : FS) (pn name : String) :
    run_main env fs pn ["remove", name] =
      (match (remove_app fs name).exit with
       | some _ => remove_app fs name
       | none =>
           { remove_app fs name with
               out := (remove_app fs name).out ++
                 [pn ++ ": web-app \x27" ++ name ++
                   "\x27 deleted successfully."],
               exit := some 0 }) := rfl

/-- C1: the spec claims a `list` subcommand that enumerates installed apps and
exits 0.  The program has no `list` case: `list` falls to the
unknown-subcommand branch, which prints an error plus the usage text and exits
with status 1, touching nothing. -/
theorem claim_C1_no_list_subcommand :
    ∀ (env : Env) (fs : FS) (program_name : String) (rest : List String),
    run_main env fs program_name ("list" :: rest) =
      ⟨"[ERROR] unknown subcommand provided.\n" :: usage_lines program_name,
       [], some 1, fs⟩ := by
  intro env fs pn rest
  rfl

/-- C1 counterexample: invoking `list` on an empty installation exits 1 (not
0), prints the unknown-subcommand error, and never prints
"No web apps found.". -/
theorem claim_C1_counterexample :
    (run_main env0 fs0 "web2app" ["list"]).exit = some 1 ∧
    (run_main env0 fs0 "web2app" ["list"]).exit ≠ some 0 ∧
    "No web apps found." ∉ (run_main env0 fs0 "web2app" ["list"]).out ∧
    (run_main env0 fs0 "web2app" ["list"]).out.head? =
      some "[ERROR] unknown subcommand provided.\n" := by decide

/-- C2: the desktop-entry content written by `write_desktop_file` does not
consist of the template keys alone: the source leaves a git merge-conflict
marker line between the `Exec` and `Terminal` lines.  Evaluated at the scenario input of the spec (`myapp`, `https://example.com`, platform `x11`, browser
`chromium`). -/
theorem claim_C2_stray_marker_line :
    (desktop_file_lines "https://example.com" "myapp"
        (icon_file_path "/home/user" "myapp") "x11" "chromium").get? 5 =
      some "Exec=chromium --new-window --ozone-platform=x11 --app=https://example.com --name=myapp --class=myapp" ∧
    (desktop_file_lines "https://example.com" "myapp"
        (icon_file_path "/home/user" "myapp") "x11" "chromium").get? 6 =
      some ">>>>>>> f03086e (feat: support multiple Chromium-based browsers)" ∧
    (desktop_file_lines "https://example.com" "myapp"
        (icon_file_path "/home/user" "myapp") "x11" "chromium").get? 7 =
      some "Terminal=false" := by decide

/-- C3: the spec claims `add <name> <url> <icon_url> --platform=x11` is
accepted with the flag not counted as a positional argument.  Because the
`--browser=` check in the source is an `if`, not an `elif`, the `--platform=`
argument is also appended to `positional_args`, so the invocation is rejected
with "too many arguments" and exit 1, with no side effects. -/
theorem claim_C3_platform_flag_counted_as_positional :
    (run_main env0 fs0 "web2app"
        ["add", "myapp", "https://example.com",
         "https://example.com/icon.png", "--platform=x11"]).exit = some 1 ∧
    (run_main env0 fs0 "web2app"
        ["add", "myapp", "https://example.com",
         "https://example.com/icon.png", "--platform=x11"]).out.head? =
      some "[ERROR] too many arguments provided.\n" ∧
    (run_main env0 fs0 "web2app"
        ["add", "myapp", "https://example.com",
         "https://example.com/icon.png", "--platform=x11"]).effects = [] ∧
    (run_main env0 fs0 "web2app"
        ["add", "myapp", "https://example.com",
         "https://example.com/icon.png", "--platform=x11"]).fs.desktopFiles
      "myapp" = none := by decide

/-- C5: `remove <name>` exits 1 and deletes no file exactly when
`<name>.desktop` is absent; when the entry exists but the icon is missing it
warns, deletes only the entry, and exits 0; when both exist it deletes both
and exits 0. -/
theorem claim_C5_remove_semantics : ∀ (env : Env) (fs : FS) (pn name : String),
    (fs.desktopFiles name = none →
       (run_main env fs pn ["remove", name]).exit = some 1 ∧
       (run_main env fs pn ["remove", name]).fs.desktopFiles =
         fs.desktopFiles ∧
       (run_main env fs pn ["remove", name]).fs.iconFiles = fs.iconFiles ∧
       (run_main env fs pn ["remove", name]).effects = [Effect.mkdirIcons]) ∧
    (∀ d, fs.desktopFiles name = some d → fs.iconFiles name = none →
       (run_main env fs pn ["remove", name]).exit = some 0 ∧
       (run_main env fs pn ["remove", name]).out.head? =
         some ("[WARNING] webapp icon with name \x27" ++ name ++
           "\x27 not found.") ∧
       (run_main env fs pn ["remove", name]).fs.desktopFiles =
         upd fs.desktopFiles name none ∧
       (run_main env fs pn ["remove", name]).fs.iconFiles = fs.iconFiles ∧
       (run_main env fs pn ["remove", name]).effects =
         [Effect.mkdirIcons, Effect.deleteDesktopFile name]) ∧
    (∀ d c, fs.desktopFiles name = some d → fs.iconFiles name = some c →
       (run_main env fs pn ["remove", name]).exit = some 0 ∧
       (run_main env fs pn ["remove", name]).fs.desktopFiles =
         upd fs.desktopFiles name none ∧
       (run_main env fs pn ["remove", name]).fs.iconFiles =
         upd fs.iconFiles name none ∧
       (run_main env fs pn ["remove", name]).effects =
         [Effect.mkdirIcons, Effect.deleteDesktopFile name,
          Effect.deleteIconFile name]) := by
  intro env fs pn name
  refine ⟨?_, ?_, ?_⟩
  · intro h
    rw [run_main_remove_eq, remove_app_not_found fs name h]
    exact ⟨rfl, rfl, rfl, rfl⟩
  · intro d hd hi
    rw [run_main_remove_eq, remove_app_icon_missing fs name d hd hi]
    exact ⟨rfl, rfl, rfl, rfl, rfl⟩
  · intro d c hd hi
    rw [run_main_remove_eq, remove_app_both fs name d c hd hi]
    exact ⟨rfl, rfl, rfl, rfl⟩

/-- C5 witness: on a file system holding `myapp.desktop` but no icon,
`remove myapp` warns, exits 0, and keeps the icon map unchanged. -/
theorem claim_C5_witness :
    fs1.desktopFiles "myapp" = some "old content" ∧
    fs1.iconFiles "myapp" = none ∧
    (run_main env0 fs1 "web2app" ["remove", "myapp"]).exit = some 0 ∧
    (run_main env0 fs1 "web2app" ["remove", "myapp"]).out.head? =
      some ("[WARNING] webapp icon with name \x27" ++ "myapp" ++
        "\x27 not found.") := by
  have h := (claim_C5_remove_semantics env0 fs1 "web2app" "myapp").2.1
    "old content" rfl rfl
  exact ⟨rfl, rfl, h.1, h.2.1⟩

/-- C9: `remove_app` creates the icons directory before the existence check,
so even a failing remove of an unknown name (exit 1, nothing deleted) leaves
`iconsDirExists = true`. -/
theorem claim_C9_mkdir_before_check : ∀ (fs : FS) (name : String),
    fs.desktopFiles name = none →
    (remove_app fs name).exit = some 1 ∧
    (remove_app fs name).fs.desktopFiles = fs.desktopFiles ∧
    (remove_app fs name).fs.iconFiles = fs.iconFiles ∧
    (remove_app fs name).fs.iconsDirExists = true ∧
    (remove_app fs name).effects = [Effect.mkdirIcons] := by
  intro fs name h
  rw [remove_app_not_found fs name h]
  exact ⟨rfl, rfl, rfl, rfl, rfl⟩

/-- C9 witness: removing a nonexistent app from a file system whose icons
directory is absent fails with exit 1 yet creates the icons directory. -/
theorem claim_C9_witness :
    fs0.iconsDirExists = false ∧ fs0.desktopFiles "myapp" = none ∧
    (remove_app fs0 "myapp").exit = some 1 ∧
    (remove_app fs0 "myapp").fs.iconsDirExists = true := by
  have h := claim_C9_mkdir_before_check fs0 "myapp" rfl
  exact ⟨rfl, rfl, h.1, h.2.2.2.1⟩

theorem upd_upd_none (f : String → Option String) (k : String)
    (v : Option String) (h : f k = none) : upd (upd f k v) k none = f := by
  funext n
  unfold upd
  by_cases hn : n = k
  · subst hn
    simp [h]
  · simp [hn]

/-- C4 (amended): when the icons directory already exists and no
`<name>.desktop` or `<name>.png` file is present before the `add`, a
successful `add` (valid URLs, successful download, resolved browser) followed
by `remove` restores the file system exactly. -/
theorem claim_C4_roundtrip : ∀ (env : Env) (fs : FS)
    (name url icon_url content b : String) (platform browser : Option String),
    valid_parse (env.parse url) → valid_parse (env.parse icon_url) →
    env.getResult icon_url = GetOutcome.ok content →
    resolve_browser env browser = some b →
    fs.iconsDirExists = true → fs.desktopFiles name = none →
    fs.iconFiles name = none →
    (create_app env fs name url icon_url platform browser).exit = none ∧
    (remove_app (create_app env fs name url icon_url platform browser).fs
        name).exit = none ∧
    (remove_app (create_app env fs name url icon_url platform browser).fs
        name).fs = fs := by
  intro env fs name url icon_url content b platform browser hu hi hg hb hdir
    hd hic
  obtain ⟨w, hw⟩ :=
    create_app_ok env fs name url icon_url content b platform browser
      hu hi hg hb
  rw [hw]
  have hd' : (⟨true,
      upd fs.desktopFiles name (some (desktop_file_content url name
        (icon_file_path env.home name)
        (platform.getD (detect_display_server env)) b)),
      upd fs.iconFiles name (some content)⟩ : FS).desktopFiles name =
      some (desktop_file_content url name (icon_file_path env.home name)
        (platform.getD (detect_display_server env)) b) := by
    simp [upd]
  have hi' : (⟨true,
      upd fs.desktopFiles name (some (desktop_file_content url name
        (icon_file_path env.home name)
        (platform.getD (detect_display_server env)) b)),
      upd fs.iconFiles name (some content)⟩ : FS).iconFiles name =
      some content := by
    simp [upd]
  rw [remove_app_both _ name _ content hd' hi']
  refine ⟨rfl, rfl, ?_⟩
  obtain ⟨ic, d, i⟩ := fs
  simp only at hd hic hdir
  subst hdir
  rw [upd_upd_none d name _ hd, upd_upd_none i name _ hic]

/-- C4 counterexample: the round-trip claim fails as stated when a file named
`myapp.desktop` already exists before the `add`: `add` overwrites it and
`remove` then deletes it, so the applications directory is not in its pre-add
state. -/
theorem claim_C4_counterexample :
    (remove_app (create_app env0 fs1 "myapp" "https://example.com"
        "https://example.com/icon.png" none none).fs "myapp").fs.desktopFiles
      "myapp" ≠ fs1.desktopFiles "myapp" := by decide

/-- C4 witness: on an empty installation with the icons directory present,
`add myapp` then `remove myapp` restores the initial file system exactly. -/
theorem claim_C4_witness :
    (create_app env0 fsEmptyIcons "myapp" "https://example.com"
      "https://example.com/icon.png" none none).exit = none ∧
    (remove_app (create_app env0 fsEmptyIcons "myapp" "https://example.com"
        "https://example.com/icon.png" none none).fs "myapp").fs =
      fsEmptyIcons := by
  have h := claim_C4_roundtrip env0 fsEmptyIcons "myapp" "https://example.com"
    "https://example.com/icon.png" "PNGDATA" "chromium" none none
    (by decide) (by decide) rfl (by decide) rfl rfl rfl
  exact ⟨h.1, h.2.2⟩

theorem validate_url_bad_scheme (url : String) (p : ParsedUrl) (t : String)
    (h : ¬(p.scheme = "http" ∨ p.scheme = "https")) :
    validate_url url p t =
      (["[ERROR] invalid " ++ t ++ ": \x27" ++ url ++ "\x27",
        "-> " ++ t ++ " must start with http:// or https://"], false) := by
  unfold validate_url
  rw [if_pos h]

theorem validate_url_bad_netloc (url : String) (p : ParsedUrl) (t : String)
    (h1 : p.scheme = "http" ∨ p.scheme = "https") (h2 : p.netloc = "") :
    validate_url url p t =
      (["[ERROR] invalid " ++ t ++ ": \x27" ++ url ++ "\x27",
        "-> " ++ t ++ " is missing a domain"], false) := by
  unfold validate_url
  rw [if_neg (not_not_intro h1), if_pos h2]

theorem validate_icon_url_invalid (env : Env) (url : String)
    (lines : List String)
    (hv : validate_url url (env.parse url) "icon URL" = (lines, false)) :
    validate_icon_url env url = (lines, [], false) := by
  unfold validate_icon_url
  rw [hv]
  rfl

theorem create_app_invalid_url_eq (env : Env) (fs : FS)
    (name url icon_url : String) (platform browser : Option String)
    (lines : List String)
    (hv : validate_url url (env.parse url) "webapp URL" = (lines, false)) :
    create_app env fs name url icon_url platform browser =
      ⟨lines, [], some 1, fs⟩ := by
  unfold create_app
  rw [hv]
  rfl

theorem create_app_invalid_icon_eq (env : Env) (fs : FS)
    (name url icon_url : String) (platform browser : Option String)
    (lines : List String) (hu : valid_parse (env.parse url))
    (hv : validate_icon_url env icon_url = (lines, [], false)) :
    create_app env fs name url icon_url platform browser =
      ⟨lines, [], some 1, fs⟩ := by
  unfold create_app
  rw [validate_url_valid url (env.parse url) "webapp URL" hu, hv]
  rfl

theorem create_app_invalid_url_result (env : Env) (fs : FS)
    (name url icon_url : String) (platform browser : Option String)
    (hU : ¬ valid_parse (env.parse url)) :
    (create_app env fs name url icon_url platform browser).exit = some 1 ∧
    (create_app env fs name url icon_url platform browser).effects = [] ∧
    (create_app env fs name url icon_url platform browser).fs = fs ∧
    (create_app env fs name url icon_url platform browser).out.head? =
      some ("[ERROR] invalid " ++ "webapp URL" ++ ": \x27" ++ url ++
        "\x27") := by
  rcases not_and_or.mp hU with hA | hB
  · rw [create_app_invalid_url_eq env fs name url icon_url platform browser _
      (validate_url_bad_scheme url (env.parse url) "webapp URL" hA)]
    exact ⟨rfl, rfl, rfl, rfl⟩
  · have hB' : (env.parse url).netloc = "" := not_not.mp hB
    by_cases hA : (env.parse url).scheme = "http" ∨
      (env.parse url).scheme = "https"
    · rw [create_app_invalid_url_eq env fs name url icon_url platform browser _
        (validate_url_bad_netloc url (env.parse url) "webapp URL" hA hB')]
      exact ⟨rfl, rfl, rfl, rfl⟩
    · rw [create_app_invalid_url_eq env fs name url icon_url platform browser _
        (validate_url_bad_scheme url (env.parse url) "webapp URL" hA)]
      exact ⟨rfl, rfl, rfl, rfl⟩

theorem create_app_invalid_icon_result (env : Env) (fs : FS)
    (name url icon_url : String) (platform browser : Option String)
    (hu : valid_parse (env.parse url))
    (hI : ¬ valid_parse (env.parse icon_url)) :
    (create_app env fs name url icon_url platform browser).exit = some 1 ∧
    (create_app env fs name url icon_url platform browser).effects = [] ∧
    (create_app env fs name url icon_url platform browser).fs = fs ∧
    (create_app env fs name url icon_url platform browser).out.head? =
      some ("[ERROR] invalid " ++ "icon URL" ++ ": \x27" ++ icon_url ++
        "\x27") := by
  rcases not_and_or.mp hI with hA | hB
  · rw [create_app_invalid_icon_eq env fs name url icon_url platform browser _
      hu (validate_icon_url_invalid env icon_url _
        (validate_url_bad_scheme icon_url (env.parse icon_url) "icon URL" hA))]
    exact ⟨rfl, rfl, rfl, rfl⟩
  · have hB' : (env.parse icon_url).netloc = "" := not_not.mp hB
    by_cases hA : (env.parse icon_url).scheme = "http" ∨
      (env.parse icon_url).scheme = "https"
    · rw [create_app_invalid_icon_eq env fs name url icon_url platform browser
        _ hu (validate_icon_url_invalid env icon_url _
          (validate_url_bad_netloc icon_url (env.parse icon_url) "icon URL"
            hA hB'))]
      exact ⟨rfl, rfl, rfl, rfl⟩
    · rw [create_app_invalid_icon_eq env fs name url icon_url platform browser
        _ hu (validate_icon_url_invalid env icon_url _
          (validate_url_bad_scheme icon_url (env.parse icon_url) "icon URL"
            hA))]
      exact ⟨rfl, rfl, rfl, rfl⟩

/-- C7: when either input URL has a scheme other than http/https or an empty
host, `create_app` prints a descriptive `[ERROR]` line and exits 1 with no
network request, no directory creation, and no file write. -/
theorem claim_C7_invalid_url_no_side_effects : ∀ (env : Env) (fs : FS)
    (name url icon_url : String) (platform browser : Option String),
    ¬ valid_parse (env.parse url) ∨ ¬ valid_parse (env.parse icon_url) →
    (create_app env fs name url icon_url platform browser).exit = some 1 ∧
    (create_app env fs name url icon_url platform browser).effects = [] ∧
    (create_app env fs name url icon_url platform browser).fs = fs ∧
    ∃ t bad, (create_app env fs name url icon_url platform browser).out.head? =
      some ("[ERROR] invalid " ++ t ++ ": \x27" ++ bad ++ "\x27") := by
  intro env fs name url icon_url platform browser h
  by_cases hu : valid_parse (env.parse url)
  · have hI : ¬ valid_parse (env.parse icon_url) := by
      rcases h with hU | hI
      · exact absurd hu hU
      · exact hI
    have hr := create_app_invalid_icon_result env fs name url icon_url
      platform browser hu hI
    exact ⟨hr.1, hr.2.1, hr.2.2.1, "icon URL", icon_url, hr.2.2.2⟩
  · have hr := create_app_invalid_url_result env fs name url icon_url
      platform browser hu
    exact ⟨hr.1, hr.2.1, hr.2.2.1, "webapp URL", url, hr.2.2.2⟩

/-- C7 witness: an `add` whose webapp URL does not parse as http/https exits 1
having performed no effect. -/
theorem claim_C7_witness :
    (create_app env0 fs0 "myapp" "ftp://example.com"
      "https://example.com/icon.png" none none).exit = some 1 ∧
    (create_app env0 fs0 "myapp" "ftp://example.com"
      "https://example.com/icon.png" none none).effects = [] := by
  have h := claim_C7_invalid_url_no_side_effects env0 fs0 "myapp"
    "ftp://example.com" "https://example.com/icon.png" none none
    (Or.inl (by decide))
  exact ⟨h.1, h.2.1⟩

/-- An environment identical to `env0` but with an empty `PATH` (no executable
found). -/
def envNoBrowser : Env :=
  { env0 with which := fun _ => false }

/-- C6: with no `--browser` flag, detection returns exactly the first name of
the fixed preference list present on `PATH`; when none is present,
`create_app` exits 1 after printing the error that lists all supported
names. -/
theorem claim_C6_browser_detection : ∀ (which : String → Bool),
    (∀ b, detect_browser which = some b ↔
       which b = true ∧ ∃ l1 l2, SUPPORTED_BROWSERS = l1 ++ b :: l2 ∧
         ∀ x ∈ l1, which x = false) ∧
    ((∀ b ∈ SUPPORTED_BROWSERS, which b = false) →
       ∀ (env : Env) (fs : FS) (name url icon_url : String)
         (platform : Option String),
         env.which = which →
         valid_parse (env.parse url) → valid_parse (env.parse icon_url) →
         (create_app env fs name url icon_url platform none).exit = some 1 ∧
         (create_app env fs name url icon_url platform none).fs = fs ∧
         "[ERROR] no supported browser found." ∈
           (create_app env fs name url icon_url platform none).out ∧
         ("-> supported browsers: " ++
             String.intercalate ", " SUPPORTED_BROWSERS) ∈
           (create_app env fs name url icon_url platform none).out) := by
  intro which
  constructor
  · intro b
    rw [detect_browser, List.find?_eq_some]
    constructor
    · rintro ⟨hb, l1, l2, heq, hl1⟩
      exact ⟨hb, l1, l2, heq, fun x hx => by simpa using hl1 x hx⟩
    · rintro ⟨hb, l1, l2, heq, hl1⟩
      exact ⟨hb, l1, l2, heq, fun x hx => by simpa using hl1 x hx⟩
  · intro hnone env fs name url icon_url platform henv hu hi
    have hrb : resolve_browser env none = none := by
      unfold resolve_browser detect_browser
      rw [henv, List.find?_eq_none]
      intro x hx
      simp [hnone x hx]
    obtain ⟨w, hw⟩ := validate_icon_url_valid env icon_url hi
    unfold create_app
    rw [validate_url_valid url (env.parse url) "webapp URL" hu, hw, hrb]
    refine ⟨rfl, rfl, ?_, ?_⟩
    · simp
    · simp

/-- C6 witness: with nothing on `PATH`, detection yields no browser and an
`add` with valid URLs exits 1 printing the supported-browsers list. -/
theorem claim_C6_witness :
    (∀ b ∈ SUPPORTED_BROWSERS, envNoBrowser.which b = false) ∧
    (create_app envNoBrowser fs0 "myapp" "https://example.com"
      "https://example.com/icon.png" none none).exit = some 1 ∧
    ("-> supported browsers: " ++
        String.intercalate ", " SUPPORTED_BROWSERS) ∈
      (create_app envNoBrowser fs0 "myapp" "https://example.com"
        "https://example.com/icon.png" none none).out := by
  have h := (claim_C6_browser_detection (fun _ => false)).2
    (fun b _ => rfl) envNoBrowser fs0 "myapp" "https://example.com"
    "https://example.com/icon.png" none rfl (by decide) (by decide)
  exact ⟨fun b _ => rfl, h.1, h.2.2.2⟩

theorem create_app_download_effect (env : Env) (fs : FS)
    (name url icon_url b : String) (platform : Option String)
    (hu : valid_parse (env.parse url)) (hi : valid_parse (env.parse icon_url)) :
    Effect.getRequest icon_url ∈
      (create_app env fs name url icon_url platform (some b)).effects := by
  obtain ⟨w, hw⟩ := validate_icon_url_valid env icon_url hi
  unfold create_app
  rw [validate_url_valid url (env.parse url) "webapp URL" hu, hw]
  cases hg : env.getResult icon_url with
  | httpError err => simp [resolve_browser]
  | missingSchema err => simp [resolve_browser]
  | ok content => simp [resolve_browser]

/-- C8: for a syntactically valid icon URL the HEAD probe can never make the
validation fail: whatever `requests.head` does, `validate_icon_url` returns
`True` (emitting a warning when the request raises or the Content-Type is
outside the allow-list), and `create_app` goes on to issue the GET download
request. -/
theorem claim_C8_head_probe_never_fatal : ∀ (env : Env) (url : String),
    valid_parse (env.parse url) →
    (validate_icon_url env url).2.2 = true ∧
    (validate_icon_url env url).2.1 = [Effect.headRequest url] ∧
    (∀ msg, env.headResult url = HeadOutcome.fail msg →
       (validate_icon_url env url).1.head? =
         some ("[WARNING] could not verify icon URL: " ++ msg)) ∧
    (∀ ct, env.headResult url = HeadOutcome.ok ct →
       valid_types.any (fun t => str_contains (str_lower ct) t) = false →
       (validate_icon_url env url).1.head? =
         some ("[WARNING] icon URL may not be a valid image (Content-Type: " ++
           str_lower ct ++ ")")) ∧
    (∀ (fs : FS) (name main_url b : String) (platform : Option String),
       valid_parse (env.parse main_url) →
       Effect.getRequest url ∈
         (create_app env fs name main_url url platform (some b)).effects) := by
  intro env url h
  obtain ⟨w, hw⟩ := validate_icon_url_valid env url h
  refine ⟨?_, ?_, ?_, ?_, ?_⟩
  · rw [hw]
  · rw [hw]
  · intro msg hmsg
    unfold validate_icon_url
    rw [validate_url_valid url (env.parse url) "icon URL" h, hmsg]
    rfl
  · intro ct hct hcontains
    simp only [validate_icon_url,
      validate_url_valid url (env.parse url) "icon URL" h, hct, hcontains]
    rfl
  · intro fs name main_url b platform hm
    exact create_app_download_effect env fs name main_url url b platform hm h

/-- C8 witness: a valid icon URL whose HEAD reports a non-image Content-Type
still validates to `True` with a warning, and the GET download request is
still issued. -/
theorem claim_C8_witness :
    (validate_icon_url { env0 with
        headResult := fun _ => HeadOutcome.ok "text/html" }
      "https://example.com/icon.png").2.2 = true ∧
    (validate_icon_url { env0 with
        headResult := fun _ => HeadOutcome.ok "text/html" }
      "https://example.com/icon.png").1.head? =
      some ("[WARNING] icon URL may not be a valid image (Content-Type: " ++
        str_lower "text/html" ++ ")") := by
  have h := claim_C8_head_probe_never_fatal
    { env0 with headResult := fun _ => HeadOutcome.ok "text/html" }
    "https://example.com/icon.png" (by decide)
  exact ⟨h.1, h.2.2.2.1 "text/html" rfl (by decide)⟩

theorem except_ok_bind {ε α β : Type} (a : α) (k : α → Except ε β) :
    (Except.ok a : Except ε α) >>= k = k a := rfl

theorem add_parse_arg_positional (pn : String) (st : AddParseState)
    (arg : String) (h1 : starts_with arg "--platform=" = false)
    (h2 : starts_with arg "--browser=" = false) :
    add_parse_arg pn st arg =
      Except.ok { st with positional := st.positional ++ [arg] } := by
  unfold add_parse_arg
  rw [h1, h2]
  rfl

theorem add_parse_arg_browser (pn : String) (st : AddParseState)
    (arg : String) (h1 : starts_with arg "--platform=" = false)
    (h2 : starts_with arg "--browser=" = true) :
    add_parse_arg pn st arg =
      Except.ok { st with browser := some (str_drop arg 10) } := by
  unfold add_parse_arg
  rw [h1, h2]
  rfl

theorem run_main_add_eq (env : Env) (fs : FS) (pn : String)
    (argv : List String) (p b : Option String) (name url icon_url : String)
    (hp : argv.foldlM (add_parse_arg pn) (⟨none, none, []⟩ : AddParseState) =
      Except.ok ⟨p, b, [name, url, icon_url]⟩) :
    run_main env fs pn ("add" :: argv) =
      (match (create_app env fs name url icon_url p b).exit with
       | some _ => create_app env fs name url icon_url p b
       | none =>
           { create_app env fs name url icon_url p b with
               out := (create_app env fs name url icon_url p b).out ++
                 [pn ++ ": web-app \x27" ++ name ++
                   "\x27 created successfully."],
               exit := some 0 }) := by
  simp only [run_main]
  rw [hp]
  rfl

/-- C10: a browser supplied as `--browser=<name>` is extracted by the
argument loop (not counted as positional), never checked against
`SUPPORTED_BROWSERS` or `PATH` (the outcome is independent of `which`), and
is spliced verbatim into the generated `Exec=` line. -/
theorem claim_C10_browser_flag_verbatim : ∀ (env : Env) (fs : FS)
    (pn name url icon_url arg : String),
    starts_with name "--platform=" = false →
    starts_with name "--browser=" = false →
    starts_with url "--platform=" = false →
    starts_with url "--browser=" = false →
    starts_with icon_url "--platform=" = false →
    starts_with icon_url "--browser=" = false →
    starts_with arg "--platform=" = false →
    starts_with arg "--browser=" = true →
    valid_parse (env.parse url) → valid_parse (env.parse icon_url) →
    ∀ content, env.getResult icon_url = GetOutcome.ok content →
    (run_main env fs pn ["add", name, url, icon_url, arg]).exit = some 0 ∧
    (run_main env fs pn ["add", name, url, icon_url, arg]).fs.desktopFiles
        name =
      some (desktop_file_content url name (icon_file_path env.home name)
        (detect_display_server env) (str_drop arg 10)) ∧
    (∀ w : String → Bool,
       run_main { env with which := w } fs pn
           ["add", name, url, icon_url, arg] =
         run_main env fs pn ["add", name, url, icon_url, arg]) ∧
    (desktop_file_lines url name (icon_file_path env.home name)
        (detect_display_server env) (str_drop arg 10)).get? 5 =
      some ("Exec=" ++ str_drop arg 10 ++ " --new-window " ++
        (if detect_display_server env = "" then ""
         else "--ozone-platform=" ++ detect_display_server env) ++
        " --app=" ++ url ++ " --name=" ++ name ++ " --class=" ++ name) := by
  intro env fs pn name url icon_url arg h1 h2 h3 h4 h5 h6 h7 h8 hu hi
    content hg
  have e1 : add_parse_arg pn ⟨none, none, []⟩ name =
      Except.ok ⟨none, none, [name]⟩ :=
    add_parse_arg_positional pn ⟨none, none, []⟩ name h1 h2
  have e2 : add_parse_arg pn ⟨none, none, [name]⟩ url =
      Except.ok ⟨none, none, [name, url]⟩ :=
    add_parse_arg_positional pn ⟨none, none, [name]⟩ url h3 h4
  have e3 : add_parse_arg pn ⟨none, none, [name, url]⟩ icon_url =
      Except.ok ⟨none, none, [name, url, icon_url]⟩ :=
    add_parse_arg_positional pn ⟨none, none, [name, url]⟩ icon_url h5 h6
  have e4 : add_parse_arg pn ⟨none, none, [name, url, icon_url]⟩ arg =
      Except.ok ⟨none, some (str_drop arg 10), [name, url, icon_url]⟩ :=
    add_parse_arg_browser pn ⟨none, none, [name, url, icon_url]⟩ arg h7 h8
  have hparse : [name, url, icon_url, arg].foldlM (add_parse_arg pn)
      (⟨none, none, []⟩ : AddParseState) =
      Except.ok ⟨none, some (str_drop arg 10), [name, url, icon_url]⟩ := by
    rw [List.foldlM_cons, e1, except_ok_bind, List.foldlM_cons, e2,
      except_ok_bind, List.foldlM_cons, e3, except_ok_bind, List.foldlM_cons,
      e4, except_ok_bind, List.foldlM_nil]
    rfl
  have hrm := run_main_add_eq env fs pn [name, url, icon_url, arg] none
    (some (str_drop arg 10)) name url icon_url hparse
  obtain ⟨w, hw⟩ := create_app_ok env fs name url icon_url content
    (str_drop arg 10) none (some (str_drop arg 10)) hu hi hg rfl
  rw [hrm, hw]
  refine ⟨rfl, ?_, ?_, rfl⟩
  · simp [upd]
  · intro w0
    have hrm' := run_main_add_eq { env with which := w0 } fs pn
      [name, url, icon_url, arg] none (some (str_drop arg 10)) name url
      icon_url hparse
    have hce : create_app { env with which := w0 } fs name url icon_url none
        (some (str_drop arg 10)) =
        create_app env fs name url icon_url none (some (str_drop arg 10)) :=
      rfl
    rw [hrm', hce, hw]

/-- C10 witness: `--browser=mybrowser` — a name on neither the supported list
nor `PATH` — is accepted and lands verbatim in the written desktop entry. -/
theorem claim_C10_witness :
    (run_main env0 fs0 "web2app"
      ["add", "myapp", "https://example.com", "https://example.com/icon.png",
       "--browser=mybrowser"]).exit = some 0 ∧
    (run_main env0 fs0 "web2app"
      ["add", "myapp", "https://example.com", "https://example.com/icon.png",
       "--browser=mybrowser"]).fs.desktopFiles "myapp" =
      some (desktop_file_content "https://example.com" "myapp"
        (icon_file_path env0.home "myapp") (detect_display_server env0)
        (str_drop "--browser=mybrowser" 10)) := by
  have h := claim_C10_browser_flag_verbatim env0 fs0 "web2app" "myapp"
    "https://example.com" "https://example.com/icon.png" "--browser=mybrowser"
    (by decide) (by decide) (by decide) (by decide) (by decide) (by decide)
    (by decide) (by decide) (by decide) (by decide) "PNGDATA" rfl
  exact ⟨h.1, h.2.1⟩

